import Mathlib

/-!
Shallow embedding of the `nxp_simtemp` Linux driver
(`src/kernel/scr/nxp_simtemp.c`) and verification of its specification.

The driver keeps a single shared record `struct simtemp_dev` (sensor
state), a delayed-work item that periodically produces a simulated
temperature sample, and a set of sysfs / file operations that read or
mutate the state.  We embed:

* the sensor-state record as `SimtempState` (machine integers become
  `Nat`/`Int`; the `u64` counter wraps modulo `2^64`, made explicit);
* each C function as a pure Lean function from state (plus the inputs
  the kernel hands it: the random draw, the parsed sysfs value, the
  file offset, ...) to state plus its outputs and scheduling effects;
* the locking behaviour of each function as an explicit list of
  micro-events (`lock`, `unlock`, field reads/writes, wake-ups),
  transcribed line by line from the source, with a checker
  `lockDisciplined` that decides whether every field access happens
  while the spinlock is held.
-/

/-- Modulus of the `u64` field `sample_count`. -/
def U64MOD : Nat := 2 ^ 64

/-- `struct simtemp_dev` (nxp_simtemp.c lines 19-32), restricted to the
sensor-state fields.  The `miscdevice`, `wait_queue_head_t`,
`delayed_work` and `spinlock_t` members are kernel plumbing: the wait
queue and the work item are modelled by the explicit `wake`/`resched`
outputs of the operations below, and the spinlock by the event traces.

* `enabled : bool` — sampling active;
* `sampling_hz : u32` — sampling frequency, 1..100 Hz (modelled as `Nat`);
* `temp_mc : int` — temperature in milli-degrees C (modelled as `Int`);
* `threshold_mc : int` — threshold in milli-degrees C;
* `data_ready : bool` — a new, unread sample exists;
* `sample_count : u64` — number of samples produced (kept `< U64MOD`;
  the increment in `simtemp_update_fn` is taken modulo `U64MOD`). -/
structure SimtempState where
  enabled : Bool
  sampling_hz : Nat
  temp_mc : Int
  threshold_mc : Int
  data_ready : Bool
  sample_count : Nat
  deriving Repr, DecidableEq

/-- Default state set up by `st_init` (lines 214-217): disabled, 2 Hz,
40000 m°C baseline, 45000 m°C threshold; `kzalloc` zeroes
`data_ready` and `sample_count`. -/
def simtempInit : SimtempState :=
  { enabled := false, sampling_hz := 2, temp_mc := 40000,
    threshold_mc := 45000, data_ready := false, sample_count := 0 }

/-- Result of one invocation of the work function `simtemp_update_fn`:
the new sensor state, whether `wake_up_interruptible` was called on the
wait queue, and the delay (in milliseconds) passed to
`schedule_delayed_work`, `none` when the function returned without
rescheduling itself. -/
structure UpdateResult where
  state : SimtempState
  wake : Bool
  resched : Option Nat
  deriving Repr, DecidableEq

/-- `simtemp_update_fn` (lines 36-68).  The kernel hands the function a
random 32-bit draw `r` (`get_random_bytes`, line 44); the delta is
`(int)(r % 1001) - 500` (line 46).  Under the spinlock: if the device
is not enabled it returns immediately (lines 49-52) without touching
the state and without rescheduling; otherwise it stores
`40000 + delta` into `temp_mc`, increments the `u64` counter
`sample_count` (modulo `2^64`), sets `data_ready`, calls
`wake_up_interruptible` in both branches of the threshold comparison
(lines 59-62), computes the delay `1000 / sampling_hz` ms (line 64,
`msecs_to_jiffies` kept in milliseconds) and reschedules itself with
that delay (line 67). -/
def simtemp_update_fn (s : SimtempState) (r : Nat) : UpdateResult :=
  let delta : Int := ((r % 1001 : Nat) : Int) - 500
  if !s.enabled then
    { state := s, wake := false, resched := none }
  else
    let s' : SimtempState :=
      { s with temp_mc := 40000 + delta,
               sample_count := (s.sample_count + 1) % U64MOD,
               data_ready := true }
    let wake := if s'.temp_mc ≥ s'.threshold_mc then true else true
    { state := s', wake := wake, resched := some (1000 / s'.sampling_hz) }

/-- `EPOLLIN` poll flag. -/
def EPOLLIN : Nat := 1
/-- `EPOLLRDNORM` poll flag. -/
def EPOLLRDNORM : Nat := 64

/-- Result of `st_poll`: the returned event mask and the new state. -/
structure PollResult where
  mask : Nat
  state : SimtempState
  deriving Repr, DecidableEq

/-- `st_poll` (lines 89-103).  Under the spinlock: if `data_ready` is
set, report `EPOLLIN | EPOLLRDNORM` and clear the flag; otherwise
report `0`.  (`poll_wait` registers the wait queue and does not touch
the sensor state.) -/
def st_poll (s : SimtempState) : PollResult :=
  if s.data_ready then
    { mask := EPOLLIN ||| EPOLLRDNORM, state := { s with data_ready := false } }
  else
    { mask := 0, state := s }

/-- The scheduling call `enable_store` makes after writing `enabled`
(lines 135-138): `mod_delayed_work(system_wq, &sd->work, 0)` when the
new value is enabled, `cancel_delayed_work_sync(&sd->work)` otherwise. -/
inductive SchedAction where
  | modDelayedWork (delay : Nat)
  | cancelSync
  deriving Repr, DecidableEq

/-- Effect of a `SchedAction` on the pending delayed-work timer
(`none` = no work queued, `some d` = work queued to fire after `d`):
`mod_delayed_work` (re)queues the work with the given delay whether or
not it was pending; `cancel_delayed_work_sync` removes any pending
work. -/
def applySched (_pending : Option Nat) : SchedAction → Option Nat
  | .modDelayedWork d => some d
  | .cancelSync => none

/-- Result of a sysfs store handler: the `ssize_t` return value
(`count` on success, negative errno on failure) and the new state. -/
structure StoreResult where
  ret : Int
  state : SimtempState
  deriving Repr, DecidableEq

/-- Result of `enable_store`: the `ssize_t` return, the new state, and
the scheduling call made after dropping the lock. -/
structure EnableResult where
  ret : Int
  state : SimtempState
  action : SchedAction
  deriving Repr, DecidableEq

/-- `EINVAL` errno. -/
def EINVAL : Int := 22

/-- `enable_store` (lines 125-140), after `kstrtouint` has parsed the
user string into `v` (a parse failure returns `-EINVAL` before any
state is touched; the textual boundary is out of scope).  Under the
spinlock it stores `enabled = !!v`; after dropping the lock it re-reads
`sd->enabled` and either fires the work immediately
(`mod_delayed_work` with delay 0) or synchronously cancels it.
`count` is the sysfs buffer length, returned on success. -/
def enable_store (v : Nat) (count : Nat) (s : SimtempState) : EnableResult :=
  let s' : SimtempState := { s with enabled := v != 0 }
  if s'.enabled then
    { ret := (count : Int), state := s', action := .modDelayedWork 0 }
  else
    { ret := (count : Int), state := s', action := .cancelSync }

/-- `enable_show` (lines 120-124): reports `enabled` as 1 or 0. -/
def enable_show (s : SimtempState) : Nat :=
  if s.enabled then 1 else 0

/-- `sampling_hz_store` (lines 148-158), after `kstrtouint` has parsed
`v`: rejects `v < 1 || v > 100` with `-EINVAL` leaving the state
untouched, otherwise stores `sampling_hz = v` (without taking the
lock) and returns `count`. -/
def sampling_hz_store (v : Nat) (count : Nat) (s : SimtempState) : StoreResult :=
  if v < 1 ∨ v > 100 then
    { ret := -EINVAL, state := s }
  else
    { ret := (count : Int), state := { s with sampling_hz := v } }

/-- `sampling_hz_show` (lines 143-147): reports `sampling_hz`. -/
def sampling_hz_show (s : SimtempState) : Nat :=
  s.sampling_hz

/-- `threshold_mc_store` (lines 166-174), after `kstrtoint` has parsed
`v`: stores it unconditionally (no range check, no lock) and returns
`count`. -/
def threshold_mc_store (v : Int) (count : Nat) (s : SimtempState) : StoreResult :=
  { ret := (count : Int), state := { s with threshold_mc := v } }

/-- `threshold_mc_show` (lines 161-165): reports `threshold_mc`. -/
def threshold_mc_show (s : SimtempState) : Int :=
  s.threshold_mc

/-- `temp_mc_show` (lines 177-182): reports `temp_mc`. -/
def temp_mc_show (s : SimtempState) : Int :=
  s.temp_mc

/-- The line `st_read` formats into `kbuf` (line 77):
`"temp_mc=%d\n"` with the current reading, as a character list. -/
def st_read_line (temp_mc : Int) : List Char :=
  ("temp_mc=" ++ toString temp_mc ++ "\n").data

/-- Outcome of `st_read`: return 0 at nonzero offset (EOF), `-EINVAL`
when the buffer is too small, `-EFAULT` when `copy_to_user` fails, or
success carrying the copied bytes, the new file offset and the byte
count returned. -/
inductive ReadResult where
  | eof
  | einval
  | efault
  | ok (data : List Char) (newPos : Nat) (ret : Nat)
  deriving Repr, DecidableEq

/-- `st_read` (lines 70-87).  `scnprintf` into the 64-byte `kbuf`
writes at most 63 characters (modelled by `take 63`) and yields `n`;
then: nonzero `*ppos` returns 0 (EOF) copying nothing; `len < n`
returns `-EINVAL` copying nothing; a failing `copy_to_user`
(`uncopied ≠ 0` bytes left) returns `-EFAULT`; otherwise all `n` bytes
are copied, `*ppos` becomes `n` and `n` is returned. -/
def st_read (temp_mc : Int) (len pos uncopied : Nat) : ReadResult :=
  let kbuf := (st_read_line temp_mc).take 63
  let n := kbuf.length
  if pos ≠ 0 then .eof
  else if len < n then .einval
  else if uncopied ≠ 0 then .efault
  else .ok kbuf n n

/-- Iterate the work function over a list of random draws, keeping only
the state (the scheduler model: each element is one fired cycle). -/
def runUpdates (s : SimtempState) : List Nat → SimtempState
  | [] => s
  | r :: rs => runUpdates (simtemp_update_fn s r).state rs

/-- All the operations of the driver that can touch the sensor state,
with the auxiliary inputs each one receives. -/
inductive SimtempOp where
  | update (r : Nat)
  | poll
  | enableStoreOp (v count : Nat)
  | samplingHzStoreOp (v count : Nat)
  | thresholdStoreOp (v : Int) (count : Nat)
  | readOp (len pos uncopied : Nat)
  deriving Repr, DecidableEq

/-- The sensor state after one operation.  `st_read` only reads
`temp_mc` and writes the file offset, never a sensor field, so it
leaves the state unchanged; the show handlers are pure reads and are
omitted. -/
def applyOp (s : SimtempState) : SimtempOp → SimtempState
  | .update r => (simtemp_update_fn s r).state
  | .poll => (st_poll s).state
  | .enableStoreOp v c => (enable_store v c s).state
  | .samplingHzStoreOp v c => (sampling_hz_store v c s).state
  | .thresholdStoreOp v c => (threshold_mc_store v c s).state
  | .readOp _ _ _ => s

/-- The fields of `struct simtemp_dev` protected by `sd->lock`. -/
inductive SimtempField where
  | enabledF
  | samplingHzF
  | tempMcF
  | thresholdMcF
  | dataReadyF
  | sampleCountF
  deriving Repr, DecidableEq, BEq

/-- Micro-events of one driver operation, as they appear textually in
the source: spinlock acquire/release, a read or write of a sensor
field, and a `wake_up_interruptible` call. -/
inductive Event where
  | lock
  | unlock
  | readF (f : SimtempField)
  | writeF (f : SimtempField)
  | wake
  deriving Repr, DecidableEq, BEq

/-- Event trace of `simtemp_update_fn` (lines 36-68), by branch.  The
random draw and `delta` are locals computed before the lock (lines
43-46).  Locked section: line 48 acquires, line 49 reads `enabled`;
disabled branch unlocks at line 50 and returns.  Enabled branch:
line 54 writes `temp_mc`, line 55 increments (reads then writes)
`sample_count`, line 56 writes `data_ready`, line 59 reads `temp_mc`
and `threshold_mc`, lines 60/62 wake, line 64 reads `sampling_hz`,
line 65 unlocks; `schedule_delayed_work` (line 67) touches no field. -/
def simtempUpdateTrace (enabled : Bool) : List Event :=
  [.lock, .readF .enabledF] ++
    (if enabled then
      [.writeF .tempMcF,
       .readF .sampleCountF, .writeF .sampleCountF,
       .writeF .dataReadyF,
       .readF .tempMcF, .readF .thresholdMcF, .wake,
       .readF .samplingHzF, .unlock]
    else
      [.unlock])

/-- Event trace of `st_poll` (lines 89-103): lock at line 96, read
`data_ready` at line 97, clear it at line 99 when it was set, unlock
at line 101.  (`poll_wait` touches no sensor field.) -/
def stPollTrace (ready : Bool) : List Event :=
  [.lock, .readF .dataReadyF] ++
    (if ready then [.writeF .dataReadyF] else []) ++ [.unlock]

/-- Event trace of `st_read` (lines 70-87): `scnprintf` reads
`sd->temp_mc` at line 77 with no lock held; `*ppos` is file state, not
a sensor field. -/
def stReadTrace : List Event :=
  [.readF .tempMcF]

/-- Event trace of `enable_store` (lines 125-140) after a successful
parse: lock at line 132, write `enabled` at line 133, unlock at line
134 — then line 135 reads `sd->enabled` again, outside the lock. -/
def enableStoreTrace : List Event :=
  [.lock, .writeF .enabledF, .unlock, .readF .enabledF]

/-- Event trace of `sampling_hz_store` (lines 148-158): on a valid
value, line 156 writes `sampling_hz` with no lock taken anywhere in
the handler; on a rejected value no field is touched. -/
def samplingHzStoreTrace (valid : Bool) : List Event :=
  if valid then [.writeF .samplingHzF] else []

/-- Event trace of `threshold_mc_store` (lines 166-174): line 172
writes `threshold_mc` with no lock taken. -/
def thresholdStoreTrace : List Event :=
  [.writeF .thresholdMcF]

/-- Event trace of `enable_show` (line 123): unlocked read. -/
def enableShowTrace : List Event := [.readF .enabledF]

/-- Event trace of `sampling_hz_show` (line 146): unlocked read. -/
def samplingHzShowTrace : List Event := [.readF .samplingHzF]

/-- Event trace of `threshold_mc_show` (line 164): unlocked read. -/
def thresholdShowTrace : List Event := [.readF .thresholdMcF]

/-- Event trace of `temp_mc_show` (line 180): unlocked read. -/
def tempMcShowTrace : List Event := [.readF .tempMcF]

/-- Walk a trace with the current lock-held flag: every field read or
write must happen with the lock held, `lock` requires it free,
`unlock` requires it held, and the operation must end with the lock
released. -/
def lockedWalk : List Event → Bool → Bool
  | [], held => !held
  | .lock :: es, held => !held && lockedWalk es true
  | .unlock :: es, held => held && lockedWalk es false
  | .readF _ :: es, held => held && lockedWalk es held
  | .writeF _ :: es, held => held && lockedWalk es held
  | .wake :: es, held => lockedWalk es held

/-- A trace obeys the locking discipline claimed by the spec: all
field accesses under the lock, lock/unlock properly paired. -/
def lockDisciplined (t : List Event) : Bool :=
  lockedWalk t false

/-- Every operation trace of the driver, both branches where the
handler branches (update enabled/disabled, poll ready/not-ready,
`sampling_hz_store` accepted/rejected). -/
def simtempAllTraces : List (List Event) :=
  [simtempUpdateTrace true, simtempUpdateTrace false,
   stPollTrace true, stPollTrace false,
   stReadTrace, enableStoreTrace,
   samplingHzStoreTrace true, samplingHzStoreTrace false,
   thresholdStoreTrace,
   enableShowTrace, samplingHzShowTrace, thresholdShowTrace,
   tempMcShowTrace]

example : (simtemp_update_fn simtempInit 700).state = simtempInit := by decide
example :
    (simtemp_update_fn { simtempInit with enabled := true } 700).state.temp_mc
      = 40200 := by decide
example : (st_poll { simtempInit with data_ready := true }).mask = 65 := by decide
example : st_read 40000 20 0 0 =
    .ok ("temp_mc=40000\n".data) 14 14 := by decide

/-- Project away the threshold field (set it to a fixed value), to
state that two states agree on everything except the threshold. -/
def stripThreshold (s : SimtempState) : SimtempState :=
  { s with threshold_mc := 0 }

/-- A concrete enabled state used to instantiate theorems. -/
def sEnabled0 : SimtempState :=
  { enabled := true, sampling_hz := 2, temp_mc := 40000,
    threshold_mc := 45000, data_ready := false, sample_count := 0 }

/-- A cycle that finds the device disabled leaves the state untouched,
so iterating cycles from a disabled state is the identity. -/
theorem runUpdates_of_disabled (s : SimtempState) (h : s.enabled = false) :
    ∀ rs : List Nat, runUpdates s rs = s := by
  intro rs
  induction rs with
  | nil => rfl
  | cons r rs ih =>
      show runUpdates (simtemp_update_fn s r).state rs = s
      have hs : (simtemp_update_fn s r).state = s := by
        simp [simtemp_update_fn, h]
      rw [hs, ih]

/-- C1: a sampler cycle that finds the device enabled draws a delta in
[-500, +500] m°C, stores `40000 + delta` into the reading, increments
`sample_count` by one (as the `u64` increment, modulo `2^64`; exactly
`+1` unless the counter sits at `2^64 - 1`), sets `data_ready`, and its
trace performs all these accesses inside a single
lock-acquire/release pair. -/
theorem simtemp_update_enabled_atomic_sample (s : SimtempState) (r : Nat)
    (hen : s.enabled = true) (hc : s.sample_count < U64MOD) :
    (-500 ≤ ((r % 1001 : Nat) : Int) - 500 ∧ ((r % 1001 : Nat) : Int) - 500 ≤ 500) ∧
    (simtemp_update_fn s r).state.temp_mc = 40000 + (((r % 1001 : Nat) : Int) - 500) ∧
    (simtemp_update_fn s r).state.sample_count = (s.sample_count + 1) % U64MOD ∧
    ((simtemp_update_fn s r).state.sample_count = s.sample_count + 1 ∨
      s.sample_count + 1 = U64MOD) ∧
    (simtemp_update_fn s r).state.data_ready = true ∧
    lockDisciplined (simtempUpdateTrace true) = true ∧
    (simtempUpdateTrace true).count .lock = 1 ∧
    (simtempUpdateTrace true).count .unlock = 1 := by
  have hmod : r % 1001 < 1001 := Nat.mod_lt r (by norm_num)
  refine ⟨⟨by omega, by omega⟩, ?_, ?_, ?_, ?_, by decide, by decide, by decide⟩
  · simp [simtemp_update_fn, hen]
  · simp [simtemp_update_fn, hen]
  · rcases Nat.lt_or_ge (s.sample_count + 1) U64MOD with hlt | hge
    · left
      simp [simtemp_update_fn, hen, Nat.mod_eq_of_lt hlt]
    · right
      omega
  · simp [simtemp_update_fn, hen]

/-- C1 witness: the theorem instantiated at a concrete enabled state
and the draw `r = 700` (delta `+200`). -/
theorem simtemp_update_enabled_atomic_sample_witness :
    (simtemp_update_fn sEnabled0 700).state.sample_count = sEnabled0.sample_count + 1 ∨
      sEnabled0.sample_count + 1 = U64MOD :=
  (simtemp_update_enabled_atomic_sample sEnabled0 700 rfl (by decide)).2.2.2.1

/-- C3: for every hertz value `v` with `1 ≤ v ≤ 100`,
`sampling_hz_store` succeeds (returns `count`), updates only
`sampling_hz`, and `sampling_hz_show` then reports `v`; for every `v`
outside the range it returns `-EINVAL` and the state is unchanged in
every field. -/
theorem sampling_hz_store_range_check (s : SimtempState) (v count : Nat) :
    (1 ≤ v ∧ v ≤ 100 →
      sampling_hz_store v count s
        = { ret := (count : Int), state := { s with sampling_hz := v } } ∧
      sampling_hz_show (sampling_hz_store v count s).state = v) ∧
    (¬(1 ≤ v ∧ v ≤ 100) →
      sampling_hz_store v count s = { ret := -EINVAL, state := s }) := by
  constructor
  · intro h
    have hcond : ¬(v < 1 ∨ v > 100) := by omega
    unfold sampling_hz_store
    rw [if_neg hcond]
    simp [sampling_hz_show]
  · intro h
    have hcond : v < 1 ∨ v > 100 := by omega
    unfold sampling_hz_store
    rw [if_pos hcond]

/-- C3 witness: `set_rate 50` succeeds and `get_rate` reports 50;
`set_rate 101` fails with `-EINVAL` leaving the state untouched. -/
theorem sampling_hz_store_range_check_witness :
    (sampling_hz_store 50 2 sEnabled0
        = { ret := (2 : Int), state := { sEnabled0 with sampling_hz := 50 } } ∧
      sampling_hz_show (sampling_hz_store 50 2 sEnabled0).state = 50) ∧
    sampling_hz_store 101 3 sEnabled0 = { ret := -EINVAL, state := sEnabled0 } :=
  ⟨(sampling_hz_store_range_check sEnabled0 50 2).1 (by decide),
   (sampling_hz_store_range_check sEnabled0 101 3).2 (by decide)⟩

/-- C4: `st_poll` reports a nonzero mask iff `data_ready` was set at
entry, always leaves `data_ready` false, and a second consecutive call
reports 0. -/
theorem st_poll_check_and_clear (s : SimtempState) :
    ((st_poll s).mask ≠ 0 ↔ s.data_ready = true) ∧
    (st_poll s).state.data_ready = false ∧
    (st_poll (st_poll s).state).mask = 0 := by
  by_cases h : s.data_ready = true
  · simp [st_poll, h, EPOLLIN, EPOLLRDNORM]
  · simp at h
    simp [st_poll, h]

/-- The state `enable_store` leaves behind, independent of which
scheduling branch it takes: only `enabled` is written, to `!!v`. -/
theorem enable_store_state_eq (v count : Nat) (s : SimtempState) :
    (enable_store v count s).state = { s with enabled := v != 0 } := by
  unfold enable_store
  dsimp only
  split <;> rfl

/-- The return value of `enable_store` is always `count` (success). -/
theorem enable_store_ret_eq (v count : Nat) (s : SimtempState) :
    (enable_store v count s).ret = (count : Int) := by
  unfold enable_store
  dsimp only
  split <;> rfl

/-- `sampling_hz_store` never touches `data_ready`. -/
theorem sampling_hz_store_dataReady (v count : Nat) (s : SimtempState) :
    (sampling_hz_store v count s).state.data_ready = s.data_ready := by
  unfold sampling_hz_store
  split <;> rfl

/-- `sampling_hz_store` never touches `sample_count`. -/
theorem sampling_hz_store_sampleCount (v count : Nat) (s : SimtempState) :
    (sampling_hz_store v count s).state.sample_count = s.sample_count := by
  unfold sampling_hz_store
  split <;> rfl

/-- C2: after `enable_store` is called with value 0, the state is
disabled and the scheduling call cancels any pending work (whatever
was pending, nothing remains queued); any number of further sampler
cycles fired on that state leave it — in particular `sample_count` —
exactly unchanged; a cycle that observes `enabled = false` returns the
state untouched with no wake-up and no rescheduling, and its trace is
just lock, read of `enabled`, unlock. -/
theorem enable_store_disable_stops_sampling
    (s s' : SimtempState) (count : Nat) (pending : Option Nat)
    (rs : List Nat) (r : Nat) (h' : s'.enabled = false) :
    (enable_store 0 count s).state.enabled = false ∧
    applySched pending (enable_store 0 count s).action = none ∧
    runUpdates (enable_store 0 count s).state rs = (enable_store 0 count s).state ∧
    (runUpdates (enable_store 0 count s).state rs).sample_count = s.sample_count ∧
    simtemp_update_fn s' r = { state := s', wake := false, resched := none } ∧
    simtempUpdateTrace false = [.lock, .readF .enabledF, .unlock] := by
  have he : (enable_store 0 count s).state.enabled = false := by
    rw [enable_store_state_eq]
    rfl
  have hrun : runUpdates (enable_store 0 count s).state rs
      = (enable_store 0 count s).state :=
    runUpdates_of_disabled _ he rs
  refine ⟨he, rfl, hrun, ?_, ?_, rfl⟩
  · rw [hrun, enable_store_state_eq]
  · simp [simtemp_update_fn, h']

/-- C2 witness: the theorem instantiated with a concrete running state
to disable, the initial (disabled) state for the idle cycle, and a
pending timer of 100 ms. -/
theorem enable_store_disable_stops_sampling_witness :
    simtemp_update_fn simtempInit 5
      = { state := simtempInit, wake := false, resched := none } :=
  (enable_store_disable_stops_sampling sEnabled0 simtempInit 1 (some 100)
    [3, 4] 5 rfl).2.2.2.2.1

/-- C5 counterexample: not every operation of the driver keeps its
field accesses under the lock — `sampling_hz_store` writes
`sampling_hz` with the lock never taken, and the collection of all
operation traces fails the lock discipline. -/
theorem simtemp_lock_discipline_fails :
    lockDisciplined (samplingHzStoreTrace true) = false ∧
    simtempAllTraces.all lockDisciplined = false := by decide

/-- C5 amended: the periodic sampler and `st_poll` access every field
under a properly paired lock acquisition (and a rejected
`sampling_hz_store` touches nothing), but `enable_store` re-reads
`enabled` after unlocking, and `sampling_hz_store`,
`threshold_mc_store`, `st_read` and all four show handlers read or
write sensor fields with the lock not held at all. -/
theorem simtemp_lock_discipline_partial :
    lockDisciplined (simtempUpdateTrace true) = true ∧
    lockDisciplined (simtempUpdateTrace false) = true ∧
    lockDisciplined (stPollTrace true) = true ∧
    lockDisciplined (stPollTrace false) = true ∧
    lockDisciplined (samplingHzStoreTrace false) = true ∧
    lockDisciplined enableStoreTrace = false ∧
    lockDisciplined (samplingHzStoreTrace true) = false ∧
    lockDisciplined thresholdStoreTrace = false ∧
    lockDisciplined stReadTrace = false ∧
    lockDisciplined enableShowTrace = false ∧
    lockDisciplined samplingHzShowTrace = false ∧
    lockDisciplined thresholdShowTrace = false ∧
    lockDisciplined tempMcShowTrace = false := by decide

/-- C6: across every operation of the driver, `data_ready` moves from
true to false only in `st_poll` (the observer-facing consumption), and
from false to true only in a sampler cycle that found the device
enabled (i.e. just produced a sample). -/
theorem data_ready_transition_sources (op : SimtempOp) (s : SimtempState) :
    (s.data_ready = true → (applyOp s op).data_ready = false → op = .poll) ∧
    (s.data_ready = false → (applyOp s op).data_ready = true →
      (∃ r, op = .update r) ∧ s.enabled = true) := by
  cases op with
  | update r =>
      by_cases h : s.enabled = true
      · constructor
        · intro h1 h2
          exfalso
          simp [applyOp, simtemp_update_fn, h] at h2
        · intro _ _
          exact ⟨⟨r, rfl⟩, h⟩
      · simp at h
        constructor
        · intro h1 h2
          exfalso
          simp [applyOp, simtemp_update_fn, h, h1] at h2
        · intro h1 h2
          exfalso
          simp [applyOp, simtemp_update_fn, h, h1] at h2
  | poll =>
      constructor
      · intro _ _
        rfl
      · intro h1 h2
        exfalso
        by_cases h : s.data_ready = true
        · simp [applyOp, st_poll, h] at h2
        · simp at h
          simp [applyOp, st_poll, h, h1] at h2
  | enableStoreOp v c =>
      constructor <;> intro h1 h2 <;> exfalso <;>
        rw [show (applyOp s (.enableStoreOp v c)) = (enable_store v c s).state from rfl,
            enable_store_state_eq] at h2 <;>
        simp [h1] at h2
  | samplingHzStoreOp v c =>
      constructor <;> intro h1 h2 <;> exfalso <;>
        rw [show (applyOp s (.samplingHzStoreOp v c)) = (sampling_hz_store v c s).state from rfl,
            sampling_hz_store_dataReady] at h2 <;>
        simp [h1] at h2
  | thresholdStoreOp v c =>
      constructor <;> intro h1 h2 <;> exfalso <;> simp [applyOp, threshold_mc_store, h1] at h2
  | readOp len pos u =>
      constructor <;> intro h1 h2 <;> exfalso <;> simp [applyOp, h1] at h2

/-- C6 witness: the consumption direction instantiated at `st_poll` on
a state with an unread sample. -/
theorem data_ready_transition_sources_witness :
    SimtempOp.poll = SimtempOp.poll :=
  (data_ready_transition_sources .poll { sEnabled0 with data_ready := true }).1
    rfl (by decide)

/-- C8: the wake-up behaviour and the whole resulting state apart from
the threshold field itself are identical for any two runs of the
sampler cycle that differ only in the stored threshold; the wake
happens exactly when the device is enabled (unconditionally on every
produced sample), so the threshold comparison has no observable
effect. -/
theorem simtemp_update_threshold_noninterference
    (s : SimtempState) (r : Nat) (t₁ t₂ : Int) :
    (simtemp_update_fn { s with threshold_mc := t₁ } r).wake
      = (simtemp_update_fn { s with threshold_mc := t₂ } r).wake ∧
    (simtemp_update_fn { s with threshold_mc := t₁ } r).wake = s.enabled ∧
    stripThreshold (simtemp_update_fn { s with threshold_mc := t₁ } r).state
      = stripThreshold (simtemp_update_fn { s with threshold_mc := t₂ } r).state ∧
    (simtemp_update_fn { s with threshold_mc := t₁ } r).state.threshold_mc = t₁ ∧
    (simtemp_update_fn { s with threshold_mc := t₂ } r).state.threshold_mc = t₂ ∧
    (simtemp_update_fn { s with threshold_mc := t₁ } r).resched
      = (simtemp_update_fn { s with threshold_mc := t₂ } r).resched := by
  by_cases h : s.enabled = true
  · simp [simtemp_update_fn, stripThreshold, h]
  · simp at h
    simp [simtemp_update_fn, stripThreshold, h]

/-- A concrete state whose `u64` counter sits at `2^64 - 1`. -/
def sWrap : SimtempState :=
  { enabled := true, sampling_hz := 2, temp_mc := 40000,
    threshold_mc := 45000, data_ready := false, sample_count := U64MOD - 1 }

/-- C7 counterexample: with the `u64` counter at `2^64 - 1`, one
enabled sampler cycle wraps `sample_count` to 0, so the counter is not
monotonically non-decreasing across every operation. -/
theorem sample_count_wrap_refutes_monotone :
    (applyOp sWrap (.update 0)).sample_count < sWrap.sample_count := by decide

/-- C7 amended: every operation either leaves `sample_count` unchanged
or — exactly when it is a sampler cycle with the device enabled — sets
it to the `u64` increment `(c + 1) % 2^64`; as long as the counter has
not reached `2^64 - 1` it never decreases, and it always stays below
`2^64` (in particular no operation resets it). -/
theorem sample_count_step_mod (op : SimtempOp) (s : SimtempState)
    (hc : s.sample_count < U64MOD) :
    ((applyOp s op).sample_count = s.sample_count ∨
      ((∃ r, op = .update r) ∧ s.enabled = true ∧
        (applyOp s op).sample_count = (s.sample_count + 1) % U64MOD)) ∧
    (s.sample_count < U64MOD - 1 → s.sample_count ≤ (applyOp s op).sample_count) ∧
    (applyOp s op).sample_count < U64MOD := by
  have hU : U64MOD = 18446744073709551616 := by norm_num [U64MOD]
  cases op with
  | update r =>
      by_cases h : s.enabled = true
      · have key : (applyOp s (.update r)).sample_count
            = (s.sample_count + 1) % U64MOD := by
          simp [applyOp, simtemp_update_fn, h]
        refine ⟨Or.inr ⟨⟨r, rfl⟩, h, key⟩, ?_, ?_⟩
        · intro hlt
          rw [key]
          rw [hU] at hlt ⊢
          omega
        · rw [key, hU]
          omega
      · simp at h
        have key : (applyOp s (.update r)).sample_count = s.sample_count := by
          simp [applyOp, simtemp_update_fn, h]
        exact ⟨Or.inl key, fun _ => key ▸ le_refl _, key ▸ hc⟩
  | poll =>
      have key : (applyOp s .poll).sample_count = s.sample_count := by
        by_cases h : s.data_ready = true
        · simp [applyOp, st_poll, h]
        · simp at h
          simp [applyOp, st_poll, h]
      exact ⟨Or.inl key, fun _ => key ▸ le_refl _, key ▸ hc⟩
  | enableStoreOp v c =>
      have key : (applyOp s (.enableStoreOp v c)).sample_count = s.sample_count := by
        rw [show (applyOp s (.enableStoreOp v c)) = (enable_store v c s).state from rfl,
            enable_store_state_eq]
      exact ⟨Or.inl key, fun _ => key ▸ le_refl _, key ▸ hc⟩
  | samplingHzStoreOp v c =>
      have key : (applyOp s (.samplingHzStoreOp v c)).sample_count = s.sample_count :=
        sampling_hz_store_sampleCount v c s
      exact ⟨Or.inl key, fun _ => key ▸ le_refl _, key ▸ hc⟩
  | thresholdStoreOp v c =>
      exact ⟨Or.inl rfl, fun _ => le_refl _, hc⟩
  | readOp len pos u =>
      exact ⟨Or.inl rfl, fun _ => le_refl _, hc⟩

/-- C7 witness: the amended theorem instantiated at an enabled state
with counter 0 and one sampler cycle. -/
theorem sample_count_step_mod_witness :
    sEnabled0.sample_count ≤ (applyOp sEnabled0 (.update 0)).sample_count :=
  (sample_count_step_mod (.update 0) sEnabled0 (by decide)).2.1 (by decide)

/-- C9 counterexample: calling `enable_store 1` on an already-running
device does leave the state unchanged and succeed, but it is not free
of scheduling effect: a cycle pending in 250 ms is rescheduled to fire
immediately (delay 0). -/
theorem enable_store_redundant_enable_reschedules :
    (enable_store 1 1 sEnabled0).state = sEnabled0 ∧
    applySched (some 250) (enable_store 1 1 sEnabled0).action ≠ some 250 := by
  decide

/-- C9 amended: calling `enable_store` with the value the device
already has succeeds (returns `count`) and leaves every sensor field
unchanged; with value 0 the pending work ends up cancelled (a true
no-op when nothing was pending), but with a nonzero value the work is
(re)scheduled to fire immediately, so a pending cycle is pulled
forward rather than left untouched. -/
theorem enable_store_same_value_state_noop (s : SimtempState) (v count : Nat)
    (pending : Option Nat) (h : s.enabled = (v != 0)) :
    (enable_store v count s).state = s ∧
    (enable_store v count s).ret = (count : Int) ∧
    (v = 0 → applySched pending (enable_store v count s).action = none) ∧
    (v ≠ 0 → applySched pending (enable_store v count s).action = some 0) := by
  refine ⟨?_, enable_store_ret_eq v count s, ?_, ?_⟩
  · rw [enable_store_state_eq]
    cases s with
    | mk e hz t th dr c =>
        simp only at h
        simp [h]
  · intro hv
    subst hv
    rfl
  · intro hv
    cases v with
    | zero => exact absurd rfl hv
    | succ n => rfl

/-- C9 witness: disabling an already-stopped device with no pending
work: state, return value and (absence of) schedule all unchanged. -/
theorem enable_store_same_value_state_noop_witness :
    (enable_store 0 7 simtempInit).state = simtempInit ∧
    applySched none (enable_store 0 7 simtempInit).action = none :=
  ⟨(enable_store_same_value_state_noop simtempInit 0 7 none rfl).1,
   (enable_store_same_value_state_noop simtempInit 0 7 none rfl).2.2.1 rfl⟩

/-- C10: `st_read` with a nonzero file offset returns 0 (EOF) copying
nothing; with a buffer shorter than the formatted line it returns
`-EINVAL` copying nothing; otherwise (the copy succeeding) it copies
the entire line `temp_mc=<value>\n`, sets the offset to the line
length and returns that length — never a partial line.  The
hypothesis says the line fits `scnprintf`'s 63 usable bytes, true of
every `int` reading. -/
theorem st_read_cases (t : Int) (len pos uncopied : Nat)
    (hfit : (st_read_line t).length ≤ 63) :
    (pos ≠ 0 → st_read t len pos uncopied = .eof) ∧
    (pos = 0 → len < (st_read_line t).length → st_read t len pos uncopied = .einval) ∧
    (pos = 0 → (st_read_line t).length ≤ len → uncopied = 0 →
      st_read t len pos uncopied
        = .ok (st_read_line t) (st_read_line t).length (st_read_line t).length) := by
  have hk : (st_read_line t).take 63 = st_read_line t :=
    List.take_of_length_le hfit
  refine ⟨fun h => ?_, fun h hlen => ?_, fun h hlen hu => ?_⟩
  · simp [st_read, h]
  · subst h
    simp [st_read, hk, hlen]
  · subst h
    have hnl : ¬ len < (st_read_line t).length := by omega
    simp [st_read, hk, hnl, hu]

/-- C10 witness: reading `temp_mc = 40000` with a 14-byte buffer at
offset 0 returns the whole line `temp_mc=40000\n` of length 14. -/
theorem st_read_cases_witness :
    st_read 40000 14 0 0
      = .ok (st_read_line 40000) (st_read_line 40000).length
          (st_read_line 40000).length :=
  (st_read_cases 40000 14 0 0 (by decide)).2.2 rfl (by decide) rfl
